import Mathlib

/-!
Shallow embedding of the Wake Session Brain (`wakeSessionBrain.ts`,
`src/unnamed/part_000`): the session progression state machine, tool
selector, and instruction assembly of the WUB backend.

Conventions of the embedding:
* TypeScript numbers holding small integer counters (`silenceCount`,
  `responseCount`, `escalationLevel`) become `Int`, with `Math.max` /
  `Math.min` rendered explicitly, so the clamping invariants are real
  statements rather than typing artifacts.
* Transcript strings are processed as `List Char` (`String.data`).
  JavaScript's `trim`, `toLowerCase` (the inputs of interest are ASCII),
  `split(/\s+/).length`, `includes` and the two anchored lazy-acknowledgment
  regexes are modelled by the `js*` helpers below.
* `Date` (`startTime`) is wall-clock data never read by the decision logic
  and is omitted from the state.
* Methods mutating `this.state` become functions `WakeSessionBrain →
  WakeSessionBrain`; `generateInstruction` returns the instruction text
  together with the updated brain.
-/

namespace WUB

-- ============================================
-- SESSION PHASES
-- ============================================
inductive SessionPhase where
  | brain_wakeup
  | soft_chat
  | encouragement
  | movement
  | verification
  | complete
deriving DecidableEq, Repr

/-- Position of a phase in the fixed progression order (used only by the
specification side, to state monotonicity). -/
def phaseIdx : SessionPhase → Nat
  | .brain_wakeup => 0
  | .soft_chat => 1
  | .encouragement => 2
  | .movement => 3
  | .verification => 4
  | .complete => 5

-- ============================================
-- ENGAGEMENT TOOLS
-- ============================================
inductive EngagementTool where
  | greeting
  | how_did_you_sleep
  | weather
  | calendar
  | news
  | gratitude
  | plans_today
  | interesting_fact
  | gentle_story
  | body_awareness
  | breathing
  | direct_question
  | humor
  | coffee_mention
  | first_step_insight
  | accountability
  | guilt
  | challenge
  | sit_up_request
  | stand_up_request
  | walk_request
  | coffee_walk
  | movement_verify
deriving DecidableEq, Repr

-- ============================================
-- USER RESPONSIVENESS LEVELS
-- ============================================
inductive ResponsivenessLevel where
  | silent
  | mumbling
  | minimal
  | conversing
  | alert
deriving DecidableEq, Repr

-- ============================================
-- SESSION STATE
-- ============================================
structure Preferences where
  includeNews : Bool
  includeWeather : Bool
  includeCalendar : Bool
  includeStories : Bool
deriving DecidableEq, Repr

structure SessionContext where
  weather : Option String
  calendar : Option String
  news : Option String
  currentTime : String
deriving DecidableEq, Repr

structure WakeSessionState where
  phase : SessionPhase
  toolsUsed : List EngagementTool
  toolsAvailable : List EngagementTool
  responsiveness : ResponsivenessLevel
  silenceCount : Int
  responseCount : Int
  lastUserResponse : Option String
  escalationLevel : Int
  preferences : Preferences
  context : SessionContext
deriving DecidableEq, Repr

structure WakeSessionBrain where
  personaId : String
  state : WakeSessionState
deriving DecidableEq, Repr

-- ============================================
-- JAVASCRIPT STRING PRIMITIVES
-- ============================================

/-- JavaScript `String.prototype.trim`: drop leading and trailing
whitespace. -/
def jsTrim (l : List Char) : List Char :=
  ((l.dropWhile Char.isWhitespace).reverse.dropWhile Char.isWhitespace).reverse

/-- JavaScript `String.prototype.toLowerCase` on ASCII input. -/
def jsLower (l : List Char) : List Char :=
  l.map Char.toLower

/-- Number of maximal whitespace-free runs in a character list;
`inWord` records whether the previous character was part of a run. -/
def countRuns : List Char → Bool → Nat
  | [], _ => 0
  | c :: rest, inWord =>
    if c.isWhitespace then countRuns rest false
    else (if inWord then 0 else 1) + countRuns rest true

/-- JavaScript `t.trim().split(/\s+/).length`: whitespace runs separate
words; splitting the empty string yields the one-element array `[""]`. -/
def jsWordCount (l : List Char) : Nat :=
  let t := jsTrim l
  if t = [] then 1 else countRuns t false

/-- JavaScript `hay.includes(needle)`: `needle` occurs contiguously in
`hay` (the empty needle is always found). -/
def includesSub (needle : List Char) : List Char → Bool
  | [] => needle.isEmpty
  | c :: rest => needle.isPrefixOf (c :: rest) || includesSub needle rest

-- ============================================
-- LAZY-ACKNOWLEDGMENT PATTERNS
-- ============================================

/-- Alternatives of the first lazy regex
`/^(ok|okay|k|yes|yeah|yea|yep|no|nope|nah|mm|mmm|mhm|hmm|uh|um|ah|oh)\.?$/i`. -/
def lazyPatternsA : List String :=
  ["ok", "okay", "k", "yes", "yeah", "yea", "yep", "no", "nope", "nah",
   "mm", "mmm", "mhm", "hmm", "uh", "um", "ah", "oh"]

/-- Alternatives of the second lazy regex
`/^(sure|fine|alright|right|cool)\.?$/i`. -/
def lazyPatternsB : List String :=
  ["sure", "fine", "alright", "right", "cool"]

/-- An anchored `token\.?` match: the whole input is the token, optionally
followed by a period.  The regexes carry the `i` flag, but they are applied
to text that was already lowercased, so a plain comparison against the
lowercase tokens is exact. -/
def matchesLazyToken (tok : String) (l : List Char) : Bool :=
  l = tok.data || l = tok.data ++ ['.']

/-- `lazyPatterns.some(pattern => pattern.test(lower))`. -/
def isLazyResponse (lower : List Char) : Bool :=
  (lazyPatternsA ++ lazyPatternsB).any (fun tok => matchesLazyToken tok lower)

-- ============================================
-- TOOL PRIORITY BY PHASE AND PERSONA
-- ============================================
def zenGuidePriority : SessionPhase → List EngagementTool
  | .brain_wakeup => [.greeting, .breathing, .body_awareness, .how_did_you_sleep, .gentle_story]
  | .soft_chat => [.weather, .body_awareness, .gentle_story, .gratitude, .breathing]
  | .encouragement => [.first_step_insight, .body_awareness, .sit_up_request, .plans_today]
  | .movement => [.sit_up_request, .stand_up_request, .walk_request]
  | .verification => [.movement_verify, .direct_question]
  | .complete => []

def morningCoachPriority : SessionPhase → List EngagementTool
  | .brain_wakeup => [.greeting, .how_did_you_sleep, .interesting_fact, .news]
  | .soft_chat => [.weather, .coffee_mention, .interesting_fact, .humor, .first_step_insight]
  | .encouragement => [.coffee_mention, .first_step_insight, .calendar, .plans_today, .accountability]
  | .movement => [.coffee_walk, .first_step_insight, .sit_up_request, .stand_up_request, .walk_request]
  | .verification => [.movement_verify, .coffee_mention]
  | .complete => []

def strictSergeantPriority : SessionPhase → List EngagementTool
  | .brain_wakeup => [.greeting, .news]
  | .soft_chat => [.weather, .calendar, .direct_question, .accountability]
  | .encouragement => [.challenge, .guilt, .accountability, .sit_up_request]
  | .movement => [.stand_up_request, .walk_request, .challenge]
  | .verification => [.movement_verify, .challenge]
  | .complete => []

/-- The `TOOL_PRIORITY` record: persona id to per-phase table, `none` for
an unknown persona. -/
def TOOL_PRIORITY (personaId : String) : Option (SessionPhase → List EngagementTool) :=
  if personaId = "zen-guide" then some zenGuidePriority
  else if personaId = "morning-coach" then some morningCoachPriority
  else if personaId = "strict-sergeant" then some strictSergeantPriority
  else none

/-- `TOOL_PRIORITY[personaId]?.[phase] || TOOL_PRIORITY['morning-coach'][phase]`:
an unknown persona falls back to the morning-coach table (a present but
empty list is kept, since an empty array is truthy in JavaScript). -/
def priorityFor (personaId : String) (phase : SessionPhase) : List EngagementTool :=
  match TOOL_PRIORITY personaId with
  | some table => table phase
  | none => morningCoachPriority phase

-- ============================================
-- BRAIN OPERATIONS
-- ============================================

/-- The fixed base list `getAvailableTools` starts from (note that it
already contains `gentle_story`). -/
def baseToolList : List EngagementTool :=
  [.greeting, .how_did_you_sleep, .gratitude, .plans_today,
   .interesting_fact, .gentle_story, .body_awareness, .breathing, .direct_question,
   .humor, .coffee_mention, .first_step_insight, .accountability, .guilt, .challenge,
   .sit_up_request, .stand_up_request, .walk_request, .coffee_walk, .movement_verify]

/-- `getAvailableTools`: the fixed base list, then the preference-gated
pushes of weather, calendar, news, and a (second) gentle_story. -/
def getAvailableTools (preferences : Preferences) : List EngagementTool :=
  let tools : List EngagementTool := baseToolList
  let tools := tools ++ (if preferences.includeWeather then [.weather] else [])
  let tools := tools ++ (if preferences.includeCalendar then [.calendar] else [])
  let tools := tools ++ (if preferences.includeNews then [.news] else [])
  let tools := tools ++ (if preferences.includeStories then [.gentle_story] else [])
  tools

/-- The constructor of `WakeSessionBrain`. -/
def createBrain (personaId : String) (preferences : Preferences)
    (context : SessionContext) : WakeSessionBrain :=
  { personaId := personaId
    state :=
      { phase := .brain_wakeup
        toolsUsed := []
        toolsAvailable := getAvailableTools preferences
        responsiveness := .silent
        silenceCount := 0
        responseCount := 0
        lastUserResponse := none
        escalationLevel := 0
        preferences := preferences
        context := context } }

/-- `checkVoiceCommands`: substring scan of the lowercased raw transcript;
"skip news"/"no news" and "skip weather"/"no weather" clear the matching
preference flag, the awake phrases force the phase to `verification`. -/
def checkVoiceCommands (s : WakeSessionState) (transcript : String) : WakeSessionState :=
  let lower := jsLower transcript.data
  let s1 :=
    if includesSub ("skip news").data lower || includesSub ("no news").data lower then
      { s with preferences := { s.preferences with includeNews := false } }
    else s
  let s2 :=
    if includesSub ("skip weather").data lower || includesSub ("no weather").data lower then
      { s1 with preferences := { s1.preferences with includeWeather := false } }
    else s1
  if includesSub ("i'm awake").data lower || includesSub ("i am awake").data lower
      || includesSub ("i'm up").data lower then
    { s2 with phase := .verification }
  else s2

/-- The classification block of `recordUserResponse`: lazy acknowledgments
are `minimal`; otherwise at most 3 words and 4 to 6 words are both
`conversing`; more than 6 words is `alert`. -/
def classifyLevel (transcript : String) : ResponsivenessLevel :=
  let lower := jsLower (jsTrim transcript.data)
  let wordCount := jsWordCount transcript.data
  let isLazy := isLazyResponse lower
  if isLazy then ResponsivenessLevel.minimal
  else if wordCount ≤ 3 then ResponsivenessLevel.conversing
  else if wordCount ≤ 6 then ResponsivenessLevel.conversing
  else ResponsivenessLevel.alert

/-- The state update of `recordUserResponse` before the voice-command scan:
count the response, store the transcript, classify it, and apply the
per-classification counter updates and forward phase transitions. -/
def responseClassified (s0 : WakeSessionState) (transcript : String) : WakeSessionState :=
  let s1 := { s0 with
    responseCount := s0.responseCount + 1
    lastUserResponse := some transcript }
  let level := classifyLevel transcript
  let s2 := { s1 with responsiveness := level }
  if level = .conversing ∨ level = .alert then
    let sa := { s2 with silenceCount := 0, escalationLevel := max 0 (s2.escalationLevel - 1) }
    if sa.phase = .brain_wakeup then { sa with phase := .soft_chat }
    else if sa.phase = .soft_chat ∧ sa.responseCount ≥ 2 then { sa with phase := .encouragement }
    else if sa.phase = .encouragement ∧ sa.responseCount ≥ 4 then { sa with phase := .movement }
    else sa
  else if level = .minimal then
    { s2 with
      silenceCount := max 0 (s2.silenceCount - 2)
      escalationLevel := max 0 (s2.escalationLevel - 1) }
  else s2

/-- `recordUserResponse`: the classified state update followed by the
voice-command scan of the same transcript. -/
def recordUserResponse (b : WakeSessionBrain) (transcript : String) : WakeSessionBrain :=
  { b with state := checkVoiceCommands (responseClassified b.state transcript) transcript }

/-- `recordSilence`: bump the silence counter, mark the user silent, then
apply the per-phase escalation and phase-advance rules. -/
def recordSilence (b : WakeSessionBrain) : WakeSessionBrain :=
  let s0 := b.state
  let s := { s0 with silenceCount := s0.silenceCount + 1, responsiveness := .silent }
  let s' :=
    if s.phase = .brain_wakeup then
      if s.silenceCount ≥ 4 then { s with phase := .soft_chat, escalationLevel := 1 } else s
    else if s.phase = .soft_chat then
      let s1 := if s.silenceCount ≥ 3 then
          { s with escalationLevel := min 2 (s.escalationLevel + 1) } else s
      if s1.silenceCount ≥ 6 then { s1 with phase := .encouragement } else s1
    else if s.phase = .encouragement then
      let s1 := { s with escalationLevel := min 3 (s.escalationLevel + 1) }
      if s1.silenceCount ≥ 8 then { s1 with phase := .movement } else s1
    else if s.phase = .movement then
      { s with escalationLevel := min 4 (s.escalationLevel + 1) }
    else s
  { b with state := s' }

/-- `markToolUsed`: idempotent append. -/
def markToolUsed (b : WakeSessionBrain) (tool : EngagementTool) : WakeSessionBrain :=
  if b.state.toolsUsed.contains tool then b
  else { b with state := { b.state with toolsUsed := b.state.toolsUsed ++ [tool] } }

/-- Eligibility in the curated scan of `getNextTool`: not used yet and
available under the session's preferences. -/
def eligibleTool (s : WakeSessionState) (tool : EngagementTool) : Bool :=
  !s.toolsUsed.contains tool && s.toolsAvailable.contains tool

/-- The `movementRepeatables` pool of `getNextTool`. -/
def movementRepeatables : List EngagementTool :=
  [.walk_request, .stand_up_request, .sit_up_request, .coffee_walk,
   .first_step_insight, .direct_question, .accountability]

/-- The `zenRepeatables` pool of `getNextTool`. -/
def zenRepeatables : List EngagementTool :=
  [.breathing, .body_awareness, .gentle_story, .gratitude, .direct_question]

/-- The `generalRepeatables` pool of `getNextTool`. -/
def generalRepeatables : List EngagementTool :=
  [.direct_question, .coffee_mention, .first_step_insight, .interesting_fact,
   .accountability, .challenge, .breathing, .humor]

/-- The repeatable-pool choice of `getNextTool`: the movement pool in the
movement phase, the zen pool for the zen-guide persona, the general pool
otherwise. -/
def repeatablePool (b : WakeSessionBrain) : List EngagementTool :=
  if b.state.phase = .movement then movementRepeatables
  else if b.personaId = "zen-guide" then zenRepeatables
  else generalRepeatables

/-- The repeatable pool restricted to tools of the current phase's curated
priority list (`repeatableTools.filter(tool => priority.includes(tool))`). -/
def validRepeatables (b : WakeSessionBrain) : List EngagementTool :=
  (repeatablePool b).filter
    (fun tool => (priorityFor b.personaId b.state.phase).contains tool)

/-- `getNextTool`: first eligible curated tool, else rotate through the
phase/persona-appropriate repeatable pool (restricted to the curated list
when that restriction is non-empty) by `silenceCount` modulo pool length.
JavaScript's `%`-indexing coincides with `(_ % length).toNat` for the
non-negative silence counts the brain maintains. -/
def getNextTool (b : WakeSessionBrain) : Option EngagementTool :=
  match (priorityFor b.personaId b.state.phase).find? (eligibleTool b.state) with
  | some tool => some tool
  | none =>
    if (validRepeatables b).length > 0 then
      (validRepeatables b)[(b.state.silenceCount % ((validRepeatables b).length : Int)).toNat]?
    else if (repeatablePool b).length > 0 then
      (repeatablePool b)[(b.state.silenceCount % ((repeatablePool b).length : Int)).toNat]?
    else
      none

/-- Source name of a tool (the TypeScript string-literal value). -/
def toolName : EngagementTool → String
  | .greeting => "greeting"
  | .how_did_you_sleep => "how_did_you_sleep"
  | .weather => "weather"
  | .calendar => "calendar"
  | .news => "news"
  | .gratitude => "gratitude"
  | .plans_today => "plans_today"
  | .interesting_fact => "interesting_fact"
  | .gentle_story => "gentle_story"
  | .body_awareness => "body_awareness"
  | .breathing => "breathing"
  | .direct_question => "direct_question"
  | .humor => "humor"
  | .coffee_mention => "coffee_mention"
  | .first_step_insight => "first_step_insight"
  | .accountability => "accountability"
  | .guilt => "guilt"
  | .challenge => "challenge"
  | .sit_up_request => "sit_up_request"
  | .stand_up_request => "stand_up_request"
  | .walk_request => "walk_request"
  | .coffee_walk => "coffee_walk"
  | .movement_verify => "movement_verify"

/-- Source name of a phase (the TypeScript string-literal value). -/
def phaseName : SessionPhase → String
  | .brain_wakeup => "brain_wakeup"
  | .soft_chat => "soft_chat"
  | .encouragement => "encouragement"
  | .movement => "movement"
  | .verification => "verification"
  | .complete => "complete"

/-- JavaScript `s.replace(/_/g, ' ')`. -/
def underscoresToSpaces (s : String) : String :=
  String.mk (s.data.map (fun c => if c = '_' then ' ' else c))

/-- The `variations` record of `getVariationSuggestions`: canned example
phrasings for the four tools that have them. -/
def variationsFor : EngagementTool → Option (List String)
  | .direct_question => some
      ["\"Can you hear me? Just say yes or make a sound.\"",
       "\"What's the first thing you see when you open your eyes?\"",
       "\"Tell me one word - how are you feeling right now?\"",
       "\"If you could have any breakfast right now, what would it be?\""]
  | .accountability => some
      ["\"You set this alarm for a reason. What was it?\"",
       "\"Remember why you wanted to wake up early today?\"",
       "\"Past-you made a decision to wake up now. Honor that.\"",
       "\"What would future-you think if you stayed in bed?\""]
  | .challenge => some
      ["\"Is this the person you want to be?\"",
       "\"What would you tell a friend who couldn't get out of bed?\"",
       "\"You've done hard things before. This is just getting up.\"",
       "\"Every day is a choice. What are you choosing right now?\""]
  | .breathing => some
      ["\"Take a deep breath with me... in... and out...\"",
       "\"Let's breathe together. In through the nose...\"",
       "\"One deep breath. That's all I'm asking. Ready?\"",
       "\"Breathe in energy, breathe out sleep...\""]
  | _ => none

/-- `getVariationSuggestions`: a rotating two-entry window into the tool's
variation list, keyed by `silenceCount mod length`. -/
def getVariationSuggestions (tool : EngagementTool) (silenceCount : Int) : String :=
  match variationsFor tool with
  | some toolVariations =>
    let startIdx := (silenceCount % (toolVariations.length : Int)).toNat
    let selected := (toolVariations.drop startIdx).take 2
    String.intercalate "\n" (selected.map (fun v => "- " ++ v))
  | none => "- Be creative and vary your approach from before"

/-- The `guidance` record of `getToolGuidance` (total over the tool enum,
so the source's `|| ''` default is never taken). -/
def getToolGuidance : EngagementTool → String
  | .greeting => "Greet them warmly. This is the first thing they hear."
  | .how_did_you_sleep => "Ask how they slept. Show genuine interest."
  | .weather => "Paint a RICH, IMMERSIVE picture of the weather and the day ahead. Don't just say \"68 degrees partly cloudy.\" Instead, describe how it FEELS: \"It's 17 degrees outside with soft clouds overhead - a cozy winter morning. Looks like it rained a little during the night, so it must smell amazing outside. Perfect day to open a window and breathe in that fresh air. Later this afternoon the clouds should clear up, and tonight it'll cool down to about 12 degrees.\" Make them WANT to experience the day."
  | .calendar => "Mention what's on their calendar today casually, not as pressure."
  | .news => "Share 1-2 interesting headlines to stimulate their brain."
  | .gratitude => "Ask what they're grateful for today. Wait for their answer."
  | .plans_today => "Ask what they want to accomplish today."
  | .interesting_fact => "Share something interesting to wake up their brain."
  | .gentle_story => "Share an IMMERSIVE visualization (forest stream, mountain sunrise, garden path, ocean shore, or cozy cabin). Make it LONG and detailed - paint a vivid mental picture. This is meditation, not a quick fact."
  | .body_awareness => "Guide them to notice their body. \"Feel the weight of your head on the pillow... the warmth of the blanket... Gently wiggle your fingers and toes...\" Help them reconnect with their physical form before asking them to move."
  | .breathing => "Invite them to take a deep breath with you."
  | .direct_question => "Ask them a direct question that requires a real answer."
  | .humor => "Try to make them smile or laugh."
  | .coffee_mention => "Use coffee/tea as motivation. \"That coffee is waiting for you...\" \"Imagine that first sip...\""
  | .first_step_insight => "Remind them: \"The hardest part is just getting up. Once you're on your feet, everything feels better. I promise.\""
  | .accountability => "Remind them they set this alarm for a reason."
  | .guilt => "Use light guilt about sleeping in while others are productive."
  | .challenge => "Challenge their identity - are they someone who gives up?"
  | .sit_up_request => "Ask them gently to sit up in bed."
  | .stand_up_request => "Ask them to stand up and stretch."
  | .walk_request => "Ask them to walk somewhere (window, bathroom) with their phone."
  | .coffee_walk => "Motivate them to walk to the kitchen for coffee. \"Come on, let's go get that coffee together. I'll keep you company.\""
  | .movement_verify => "Confirm they actually moved. Ask what they see or if they have their coffee."

/-- JavaScript truthiness of an optional string field (`undefined` and the
empty string are falsy). -/
def jsTruthy : Option String → Bool
  | none => false
  | some s => !s.isEmpty

/-- The per-phase guidance blocks of `generateInstruction` (empty for
`verification` and `complete`, which have no block in the source). -/
def phaseGuidance : SessionPhase → String
  | .brain_wakeup =>
      "This is the GENTLE brain wake-up phase. The user is groggy - this is NORMAL.\n"
      ++ "- Just stimulate their brain: weather, interesting facts, light chat\n"
      ++ "- Do NOT mention calendar or responsibilities yet - too early!\n"
      ++ "- Do NOT push for movement yet\n"
      ++ "- Silence is expected - keep chatting gently\n\n"
  | .soft_chat =>
      "User is showing some signs of life, or time has passed.\n"
      ++ "- Continue gentle conversation\n"
      ++ "- Can mention coffee as motivation\n"
      ++ "- Still NO calendar pressure unless they're clearly awake\n"
      ++ "- \"The hardest part is just getting up...\"\n\n"
  | .encouragement =>
      "Time to start encouraging movement.\n"
      ++ "- NOW you can mention calendar/plans\n"
      ++ "- Use coffee as motivation: \"Let's go get that coffee\"\n"
      ++ "- \"I promise once you're up, everything feels better\"\n"
      ++ "- Gently suggest sitting up or standing\n\n"
  | .movement =>
      "Time to get them physically moving.\n"
      ++ "- Coffee walk: \"Come on, let's go to the kitchen together\"\n"
      ++ "- Direct but kind requests to get up\n"
      ++ "- \"The first step is the hardest, I promise\"\n\n"
  | _ => ""

/-- `generateInstruction`: assemble the instruction text and mark the
chosen tool used.  Returns the text with the updated brain. -/
def generateInstruction (b : WakeSessionBrain) : String × WakeSessionBrain :=
  let nextTool := getNextTool b
  let phase := b.state.phase
  let escalation := b.state.escalationLevel
  let silenceCount := b.state.silenceCount
  let isInitialGreeting := b.state.toolsUsed.length = 0 ∧ phase = .brain_wakeup
  let part1 :=
    if isInitialGreeting then ""
    else "# USER IS SILENT - THEY SAID NOTHING\n"
      ++ "Do NOT respond as if they spoke. No \"That's great!\" or positive acknowledgments.\n\n"
  let part2 := "# CURRENT PHASE: " ++ (phaseName phase).toUpper ++ "\n" ++ phaseGuidance phase
  let part3 := "Escalation level: " ++ toString escalation ++ "/4 | Silent count: "
    ++ toString silenceCount ++ "\n"
  let tried := String.intercalate ", "
    ((b.state.toolsUsed.drop (b.state.toolsUsed.length - 5)).map toolName)
  let part4 := "Already tried: " ++ (if tried = "" then "nothing yet" else tried) ++ "\n\n"
  let part5 :=
    match nextTool with
    | some t =>
        "# NEXT APPROACH: " ++ (underscoresToSpaces (toolName t)).toUpper ++ "\n"
        ++ getToolGuidance t ++ "\n\n"
        ++ "# VARIATION IDEAS (pick one, or create your own)\n"
        ++ getVariationSuggestions t silenceCount
    | none => ""
  let part6 := "\n# DO NOT\n"
    ++ "- Respond as if user spoke (they didn't)\n"
    ++ "- Repeat exact same words/approach\n"
    ++ "- Give up\n"
  let part7 :=
    (if jsTruthy b.state.context.weather && b.state.preferences.includeWeather then
      "\nAVAILABLE INFO - Weather: " ++ b.state.context.weather.getD "" else "")
    ++ (if jsTruthy b.state.context.calendar && b.state.preferences.includeCalendar then
      "\nAVAILABLE INFO - Calendar: " ++ b.state.context.calendar.getD "" else "")
    ++ (if jsTruthy b.state.context.news && b.state.preferences.includeNews then
      "\nAVAILABLE INFO - News: " ++ b.state.context.news.getD "" else "")
  let b2 :=
    match nextTool with
    | some t => markToolUsed b t
    | none => b
  (part1 ++ part2 ++ part3 ++ part4 ++ part5 ++ part6 ++ part7, b2)

/-- `isComplete`. -/
def isComplete (b : WakeSessionBrain) : Bool :=
  b.state.phase = SessionPhase.complete

/-- `markComplete`. -/
def markComplete (b : WakeSessionBrain) : WakeSessionBrain :=
  { b with state := { b.state with phase := .complete } }

-- ============================================
-- SESSION RUNS (sequences of brain operations)
-- ============================================

/-- One externally invokable mutating operation of the brain. -/
inductive BrainOp where
  | response (transcript : String)
  | silence
  | toolUsed (tool : EngagementTool)
  | instruction
  | complete
deriving DecidableEq, Repr

/-- Apply one operation to the brain. -/
def applyOp (b : WakeSessionBrain) : BrainOp → WakeSessionBrain
  | .response t => recordUserResponse b t
  | .silence => recordSilence b
  | .toolUsed tool => markToolUsed b tool
  | .instruction => (generateInstruction b).2
  | .complete => markComplete b

/-- Run a finite sequence of operations. -/
def runOps (b : WakeSessionBrain) (ops : List BrainOp) : WakeSessionBrain :=
  ops.foldl applyOp b

/-- Whether a transcript contains one of the three awake phrases
(the trigger of the forced jump to `verification`). -/
def hasAwakePhrase (transcript : String) : Bool :=
  let lower := jsLower transcript.data
  includesSub ("i'm awake").data lower || includesSub ("i am awake").data lower
    || includesSub ("i'm up").data lower

/-- Whether a transcript contains a news-skip command. -/
def hasNewsCmd (transcript : String) : Bool :=
  let lower := jsLower transcript.data
  includesSub ("skip news").data lower || includesSub ("no news").data lower

/-- Whether a transcript contains a weather-skip command. -/
def hasWeatherCmd (transcript : String) : Bool :=
  let lower := jsLower transcript.data
  includesSub ("skip weather").data lower || includesSub ("no weather").data lower

/-- Whether an operation carries a news-skip command. -/
def opNewsCmd : BrainOp → Bool
  | .response t => hasNewsCmd t
  | _ => false

/-- Whether an operation carries a weather-skip command. -/
def opWeatherCmd : BrainOp → Bool
  | .response t => hasWeatherCmd t
  | _ => false

/-- Whether a transcript contains any recognized voice-command phrase. -/
def hasVoiceCmd (transcript : String) : Bool :=
  hasNewsCmd transcript || hasWeatherCmd transcript || hasAwakePhrase transcript

/-- Whether an operation is one of the two counter events (a silence tick,
or a user response with a non-empty transcript). -/
def isRSEvent : BrainOp → Bool
  | .silence => true
  | .response t => !t.isEmpty
  | _ => false

/-- The clamping invariant of the escalation and silence counters. -/
def countersInv (b : WakeSessionBrain) : Prop :=
  0 ≤ b.state.escalationLevel ∧ b.state.escalationLevel ≤ 4 ∧ 0 ≤ b.state.silenceCount

-- ============================================
-- CONCRETE FIXTURES (used by witnesses and counterexamples)
-- ============================================

/-- All content preferences switched on. -/
def prefs0 : Preferences :=
  { includeNews := true, includeWeather := true, includeCalendar := true, includeStories := true }

/-- A context with no content strings. -/
def ctx0 : SessionContext :=
  { weather := none, calendar := none, news := none, currentTime := "07:00" }

/-- A freshly created morning-coach session. -/
def demoBrain : WakeSessionBrain :=
  createBrain "morning-coach" prefs0 ctx0

/-- The demo session moved to `soft_chat` with one response recorded (the
setting of the spec's Scenario C). -/
def demoSoftChat : WakeSessionBrain :=
  { demoBrain with state := { demoBrain.state with phase := .soft_chat, responseCount := 1 } }

/-- A fresh morning-coach session after `n` silence ticks and nothing
else. -/
def silenceRun (preferences : Preferences) (context : SessionContext) (n : Nat) : WakeSessionBrain :=
  runOps (createBrain "morning-coach" preferences context) (List.replicate n .silence)

-- ============================================
-- HELPER LEMMAS
-- ============================================

/-- Closed form of `checkVoiceCommands`: it touches only the phase (forced
to `verification` on an awake phrase) and the news/weather preference flags
(cleared by the matching skip command). -/
theorem checkVoiceCommands_eq (s : WakeSessionState) (t : String) :
    checkVoiceCommands s t =
      { s with
        phase := if hasAwakePhrase t then .verification else s.phase
        preferences :=
          { s.preferences with
            includeNews := if hasNewsCmd t then false else s.preferences.includeNews
            includeWeather := if hasWeatherCmd t then false else s.preferences.includeWeather } } := by
  simp only [checkVoiceCommands, hasAwakePhrase, hasNewsCmd, hasWeatherCmd]
  split <;> split <;> split <;> simp_all

theorem phaseIdx_le_five (p : SessionPhase) : phaseIdx p ≤ 5 := by
  cases p <;> simp [phaseIdx]

/-- The classifier only ever yields `minimal`, `conversing` or `alert`. -/
theorem classifyLevel_cases (t : String) :
    classifyLevel t = .minimal ∨ classifyLevel t = .conversing ∨ classifyLevel t = .alert := by
  simp only [classifyLevel]
  split
  · exact Or.inl rfl
  · split
    · exact Or.inr (Or.inl rfl)
    · split
      · exact Or.inr (Or.inl rfl)
      · exact Or.inr (Or.inr rfl)

/-- Closed form of `responseClassified` on a lazy acknowledgment. -/
theorem responseClassified_minimal (s : WakeSessionState) (t : String)
    (h : classifyLevel t = .minimal) :
    responseClassified s t =
      { s with
        responseCount := s.responseCount + 1
        lastUserResponse := some t
        responsiveness := .minimal
        silenceCount := max 0 (s.silenceCount - 2)
        escalationLevel := max 0 (s.escalationLevel - 1) } := by
  simp [responseClassified, h]

/-- `responseClassified` always sets the responsiveness to the classifier's
verdict. -/
theorem responseClassified_responsiveness (s : WakeSessionState) (t : String) :
    (responseClassified s t).responsiveness = classifyLevel t := by
  simp only [responseClassified]
  (repeat' split) <;> rfl

/-- `responseClassified` never moves the phase backwards. -/
theorem responseClassified_phaseIdx (s : WakeSessionState) (t : String) :
    phaseIdx s.phase ≤ phaseIdx (responseClassified s t).phase := by
  simp only [responseClassified]
  (repeat' split) <;> simp_all [phaseIdx]

/-- The escalation level after `responseClassified` is either decremented
(floored at 0) or untouched. -/
theorem responseClassified_escalation (s : WakeSessionState) (t : String) :
    (responseClassified s t).escalationLevel = max 0 (s.escalationLevel - 1)
      ∨ (responseClassified s t).escalationLevel = s.escalationLevel := by
  simp only [responseClassified]
  (repeat' split) <;> simp

/-- The silence count after `responseClassified` is reset, decremented by 2
(floored at 0), or untouched. -/
theorem responseClassified_silence (s : WakeSessionState) (t : String) :
    (responseClassified s t).silenceCount = 0
      ∨ (responseClassified s t).silenceCount = max 0 (s.silenceCount - 2)
      ∨ (responseClassified s t).silenceCount = s.silenceCount := by
  simp only [responseClassified]
  (repeat' split) <;> simp

/-- Fields `responseClassified` never touches, and the two it always sets
the same way. -/
theorem responseClassified_frame (s : WakeSessionState) (t : String) :
    (responseClassified s t).toolsUsed = s.toolsUsed
      ∧ (responseClassified s t).toolsAvailable = s.toolsAvailable
      ∧ (responseClassified s t).preferences = s.preferences
      ∧ (responseClassified s t).context = s.context
      ∧ (responseClassified s t).responseCount = s.responseCount + 1
      ∧ (responseClassified s t).lastUserResponse = some t := by
  simp only [responseClassified]
  (repeat' split) <;> simp

/-- The full responsiveness behavior of `recordUserResponse`. -/
theorem recordUserResponse_responsiveness (b : WakeSessionBrain) (t : String) :
    (recordUserResponse b t).state.responsiveness = classifyLevel t := by
  simp only [recordUserResponse, checkVoiceCommands_eq]
  exact responseClassified_responsiveness b.state t

/-- `recordSilence` never moves the phase backwards. -/
theorem recordSilence_phaseIdx (b : WakeSessionBrain) :
    phaseIdx b.state.phase ≤ phaseIdx (recordSilence b).state.phase := by
  simp only [recordSilence]
  (repeat' split) <;> simp_all [phaseIdx]

/-- `recordSilence` always increments the silence counter by one. -/
theorem recordSilence_silence (b : WakeSessionBrain) :
    (recordSilence b).state.silenceCount = b.state.silenceCount + 1 := by
  simp only [recordSilence]
  (repeat' split) <;> simp

/-- The escalation level after `recordSilence` is one of the five forms the
per-phase rules produce. -/
theorem recordSilence_escalation (b : WakeSessionBrain) :
    (recordSilence b).state.escalationLevel = 1
      ∨ (recordSilence b).state.escalationLevel = min 2 (b.state.escalationLevel + 1)
      ∨ (recordSilence b).state.escalationLevel = min 3 (b.state.escalationLevel + 1)
      ∨ (recordSilence b).state.escalationLevel = min 4 (b.state.escalationLevel + 1)
      ∨ (recordSilence b).state.escalationLevel = b.state.escalationLevel := by
  simp only [recordSilence]
  (repeat' split) <;> simp

/-- Fields `recordSilence` never touches, and the responsiveness it always
sets. -/
theorem recordSilence_frame (b : WakeSessionBrain) :
    (recordSilence b).personaId = b.personaId
      ∧ (recordSilence b).state.toolsUsed = b.state.toolsUsed
      ∧ (recordSilence b).state.toolsAvailable = b.state.toolsAvailable
      ∧ (recordSilence b).state.preferences = b.state.preferences
      ∧ (recordSilence b).state.context = b.state.context
      ∧ (recordSilence b).state.responseCount = b.state.responseCount
      ∧ (recordSilence b).state.lastUserResponse = b.state.lastUserResponse
      ∧ (recordSilence b).state.responsiveness = .silent := by
  simp only [recordSilence]
  (repeat' split) <;> simp

/-- Closed form of `markToolUsed`: idempotent append to `toolsUsed`,
everything else untouched. -/
theorem markToolUsed_eq (b : WakeSessionBrain) (tool : EngagementTool) :
    markToolUsed b tool =
      { b with state := { b.state with toolsUsed :=
          if b.state.toolsUsed.contains tool then b.state.toolsUsed
          else b.state.toolsUsed ++ [tool] } } := by
  simp only [markToolUsed]
  split <;> simp_all

/-- The brain returned by `generateInstruction` is `markToolUsed` applied
to the chosen tool (or the unchanged brain when there is none). -/
theorem generateInstruction_snd (b : WakeSessionBrain) :
    (generateInstruction b).2 =
      match getNextTool b with
      | some t => markToolUsed b t
      | none => b := rfl

/-- Every operation preserves the counter-clamping invariant. -/
theorem countersInv_step (b : WakeSessionBrain) (op : BrainOp) (h : countersInv b) :
    countersInv (applyOp b op) := by
  obtain ⟨h1, h2, h3⟩ := h
  cases op with
  | response t =>
    simp only [applyOp, countersInv, recordUserResponse, checkVoiceCommands_eq]
    rcases responseClassified_escalation b.state t with he | he <;>
      rcases responseClassified_silence b.state t with hs | hs | hs <;>
      rw [he, hs] <;> refine ⟨?_, ?_, ?_⟩ <;> omega
  | silence =>
    simp only [applyOp, countersInv, recordSilence_silence]
    rcases recordSilence_escalation b with he | he | he | he | he <;>
      rw [he] <;> refine ⟨?_, ?_, ?_⟩ <;> omega
  | toolUsed tool =>
    simp only [applyOp, countersInv, markToolUsed_eq]
    exact ⟨h1, h2, h3⟩
  | instruction =>
    simp only [applyOp, countersInv, generateInstruction_snd]
    cases getNextTool b with
    | some t => simp only [markToolUsed_eq]; exact ⟨h1, h2, h3⟩
    | none => exact ⟨h1, h2, h3⟩
  | complete =>
    simp only [applyOp, countersInv, markComplete]
    exact ⟨h1, h2, h3⟩

/-- A run from a brain satisfying the clamping invariant keeps it. -/
theorem countersInv_runOps (ops : List BrainOp) (b : WakeSessionBrain) (h : countersInv b) :
    countersInv (runOps b ops) := by
  induction ops generalizing b with
  | nil => exact h
  | cons op rest ih => exact ih (applyOp b op) (countersInv_step b op h)

/-- No operation can introduce the `mumbling` responsiveness. -/
theorem no_mumbling_step (b : WakeSessionBrain) (op : BrainOp)
    (h : b.state.responsiveness ≠ .mumbling) :
    (applyOp b op).state.responsiveness ≠ .mumbling := by
  cases op with
  | response t =>
    show (recordUserResponse b t).state.responsiveness ≠ _
    rw [recordUserResponse_responsiveness]
    rcases classifyLevel_cases t with hc | hc | hc <;> simp [hc]
  | silence =>
    have := (recordSilence_frame b).2.2.2.2.2.2.2
    show (recordSilence b).state.responsiveness ≠ _
    simp [this]
  | toolUsed tool =>
    show (markToolUsed b tool).state.responsiveness ≠ _
    rw [markToolUsed_eq]
    exact h
  | instruction =>
    show (generateInstruction b).2.state.responsiveness ≠ _
    rw [generateInstruction_snd]
    cases getNextTool b with
    | some t => rw [show (match some t with
        | some t => markToolUsed b t
        | none => b) = markToolUsed b t from rfl, markToolUsed_eq]; exact h
    | none => exact h
  | complete =>
    show (markComplete b).state.responsiveness ≠ _
    simp only [markComplete]
    exact h

/-- Each operation either keeps the phase index non-decreasing or is a
user response carrying an awake phrase that forces `verification`. -/
theorem phase_step (b : WakeSessionBrain) (op : BrainOp) :
    phaseIdx b.state.phase ≤ phaseIdx (applyOp b op).state.phase
      ∨ ((applyOp b op).state.phase = .verification
          ∧ ∃ t, op = .response t ∧ hasAwakePhrase t = true) := by
  cases op with
  | response t =>
    by_cases haw : hasAwakePhrase t = true
    · right
      refine ⟨?_, t, rfl, haw⟩
      simp [applyOp, recordUserResponse, checkVoiceCommands_eq, haw]
    · left
      simp only [Bool.not_eq_true] at haw
      simp only [applyOp, recordUserResponse, checkVoiceCommands_eq, haw, Bool.false_eq_true,
        if_false]
      exact responseClassified_phaseIdx b.state t
  | silence => exact Or.inl (recordSilence_phaseIdx b)
  | toolUsed tool =>
    left
    show _ ≤ phaseIdx (markToolUsed b tool).state.phase
    rw [markToolUsed_eq]
  | instruction =>
    left
    show _ ≤ phaseIdx (generateInstruction b).2.state.phase
    rw [generateInstruction_snd]
    cases getNextTool b with
    | some t =>
      rw [show (match some t with
        | some t => markToolUsed b t
        | none => b) = markToolUsed b t from rfl, markToolUsed_eq]
    | none => exact le_refl _
  | complete =>
    left
    show _ ≤ phaseIdx (markComplete b).state.phase
    simp only [markComplete]
    exact phaseIdx_le_five b.state.phase

/-- A run from a brain that is not `mumbling` never becomes `mumbling`. -/
theorem no_mumbling_runOps (ops : List BrainOp) (b : WakeSessionBrain)
    (h : b.state.responsiveness ≠ .mumbling) :
    (runOps b ops).state.responsiveness ≠ .mumbling := by
  induction ops generalizing b with
  | nil => exact h
  | cons op rest ih => exact ih (applyOp b op) (no_mumbling_step b op h)

/-- Every branch of `repeatablePool` is one of the three non-empty constant
pools. -/
theorem repeatablePool_ne_nil (b : WakeSessionBrain) : repeatablePool b ≠ [] := by
  simp only [repeatablePool]
  split
  · decide
  · split <;> decide

/-- Cyclic indexing by a modulus never falls off the end of a non-empty
list. -/
theorem getElem?_mod_ne_none (l : List EngagementTool) (x : Int) (h : l ≠ []) :
    l[(x % (l.length : Int)).toNat]? ≠ none := by
  have hl : 0 < l.length := List.length_pos.mpr h
  have hl' : (0 : Int) < (l.length : Int) := by exact_mod_cast hl
  have h1 : 0 ≤ x % (l.length : Int) := Int.emod_nonneg x (by omega)
  have h2 : x % (l.length : Int) < (l.length : Int) := Int.emod_lt_of_pos x hl'
  have hidx : (x % (l.length : Int)).toNat < l.length := by omega
  simp [List.getElem?_eq_getElem hidx]

-- ============================================
-- CLAIM THEOREMS
-- ============================================

/-- C1 (counterexample): the claim restricts the forced jump to
`verification` to strictly earlier phases, but after `markComplete` the
utterance "I am awake" still forces `verification` — the phase moves from
`complete` (position 5) back to `verification` (position 4). -/
theorem C1_counterexample :
    (applyOp demoBrain .complete).state.phase = SessionPhase.complete
    ∧ (applyOp (applyOp demoBrain .complete) (.response "I am awake")).state.phase
        = SessionPhase.verification
    ∧ phaseIdx SessionPhase.verification < phaseIdx SessionPhase.complete := by
  decide

/-- C1 (amended): every operation keeps the phase position non-decreasing
under the order brain_wakeup < soft_chat < encouragement < movement <
verification < complete, except a `recordUserResponse` whose transcript
contains an awake phrase, which forces the phase to `verification` from
any phase — including from `complete`, which sits after `verification`. -/
theorem C1_phase_monotone (b : WakeSessionBrain) (op : BrainOp) :
    phaseIdx b.state.phase ≤ phaseIdx (applyOp b op).state.phase
      ∨ ((applyOp b op).state.phase = SessionPhase.verification
          ∧ ∃ t, op = .response t ∧ hasAwakePhrase t = true) :=
  phase_step b op

/-- C2: for a non-empty, non-whitespace transcript, `recordUserResponse`
classifies a lazy acknowledgment as `minimal`; otherwise at most 6
whitespace-separated words give `conversing` and more than 6 give
`alert`. -/
theorem C2_classification (b : WakeSessionBrain) (t : String)
    (h : jsTrim t.data ≠ []) :
    (isLazyResponse (jsLower (jsTrim t.data)) = true →
        (recordUserResponse b t).state.responsiveness = .minimal)
    ∧ (isLazyResponse (jsLower (jsTrim t.data)) = false → jsWordCount t.data ≤ 6 →
        (recordUserResponse b t).state.responsiveness = .conversing)
    ∧ (isLazyResponse (jsLower (jsTrim t.data)) = false → 6 < jsWordCount t.data →
        (recordUserResponse b t).state.responsiveness = .alert) := by
  simp only [recordUserResponse_responsiveness, classifyLevel]
  refine ⟨fun hl => ?_, fun hl hw => ?_, fun hl hw => ?_⟩
  · simp [hl]
  · by_cases h3 : jsWordCount t.data ≤ 3
    · simp [hl, h3]
    · simp [hl, h3, hw]
  · have h3 : ¬ jsWordCount t.data ≤ 3 := by omega
    have h6 : ¬ jsWordCount t.data ≤ 6 := by omega
    simp [hl, h3, h6]

/-- C2 witness: "ok" is non-empty, lazy, and classified `minimal`. -/
theorem C2_witness : (recordUserResponse demoBrain "ok").state.responsiveness = .minimal :=
  (C2_classification demoBrain "ok" (by decide)).1 (by decide)

/-- C4 (counterexample): the claim says "skip news" removes the news tool
from `toolsAvailable`; in the code the command only clears the
`includeNews` preference flag and `toolsAvailable` keeps the news tool. -/
theorem C4_counterexample :
    (recordUserResponse demoBrain "skip news").state.toolsAvailable
        = demoBrain.state.toolsAvailable
    ∧ EngagementTool.news ∈ (recordUserResponse demoBrain "skip news").state.toolsAvailable
    ∧ (recordUserResponse demoBrain "skip news").state.preferences.includeNews = false := by
  decide

/-- C4 (amended): `toolsAvailable` is unchanged by every operation after
session creation; the "skip news"/"no news" and "skip weather"/"no
weather" commands instead clear the `includeNews`/`includeWeather`
preference flags, one-directionally — no operation ever sets a cleared
flag back, and the calendar/stories flags are never touched. -/
theorem C4_toolsAvailable_frame (b : WakeSessionBrain) (op : BrainOp) :
    (applyOp b op).state.toolsAvailable = b.state.toolsAvailable
    ∧ (applyOp b op).state.preferences.includeNews
        = (if opNewsCmd op then false else b.state.preferences.includeNews)
    ∧ (applyOp b op).state.preferences.includeWeather
        = (if opWeatherCmd op then false else b.state.preferences.includeWeather)
    ∧ (applyOp b op).state.preferences.includeCalendar = b.state.preferences.includeCalendar
    ∧ (applyOp b op).state.preferences.includeStories = b.state.preferences.includeStories := by
  cases op with
  | response t =>
    obtain ⟨hU, hA, hP, hC, hR, hL⟩ := responseClassified_frame b.state t
    simp [applyOp, opNewsCmd, opWeatherCmd, recordUserResponse, checkVoiceCommands_eq,
      hA, hP, hasNewsCmd, hasWeatherCmd]
  | silence =>
    obtain ⟨hI, hU, hA, hP, hC, hR, hL, hRes⟩ := recordSilence_frame b
    simp [applyOp, opNewsCmd, opWeatherCmd, hA, hP]
  | toolUsed tool =>
    simp [applyOp, markToolUsed_eq, opNewsCmd, opWeatherCmd]
  | instruction =>
    simp only [applyOp, generateInstruction_snd]
    cases getNextTool b with
    | some t => simp [markToolUsed_eq, opNewsCmd, opWeatherCmd]
    | none => simp [opNewsCmd, opWeatherCmd]
  | complete =>
    simp [applyOp, markComplete, opNewsCmd, opWeatherCmd]

/-- C5 (counterexample): with all preferences off — in particular
`includeStories = false` — `gentle_story` is still available, because it
sits in the fixed base list; the claimed "gentle_story iff includeStories"
fails. -/
theorem C5_counterexample :
    EngagementTool.gentle_story ∈ getAvailableTools
        { includeNews := false, includeWeather := false,
          includeCalendar := false, includeStories := false }
    ∧ ({ includeNews := false, includeWeather := false,
          includeCalendar := false, includeStories := false } : Preferences).includeStories
        = false := by
  decide

/-- C5 (amended): weather, calendar and news are available iff the matching
preference is on; every base-list tool is always present; `gentle_story`
is always available regardless of `includeStories` (it is in the base
list), and `includeStories = true` merely duplicates it. -/
theorem C5_availability (p : Preferences) :
    ((EngagementTool.weather ∈ getAvailableTools p) ↔ p.includeWeather = true)
    ∧ ((EngagementTool.calendar ∈ getAvailableTools p) ↔ p.includeCalendar = true)
    ∧ ((EngagementTool.news ∈ getAvailableTools p) ↔ p.includeNews = true)
    ∧ EngagementTool.gentle_story ∈ getAvailableTools p
    ∧ ((getAvailableTools p).count EngagementTool.gentle_story
        = if p.includeStories then 2 else 1)
    ∧ ∀ t ∈ baseToolList, t ∈ getAvailableTools p := by
  obtain ⟨n, w, c, st⟩ := p
  cases n <;> cases w <;> cases c <;> cases st <;> decide

/-- C3: `getNextTool` returns the first curated tool that is unused and
available; when none qualifies it rotates by `silenceCount mod L` through
the repeatable pool restricted to the curated list if that restriction is
non-empty, else through the unrestricted pool; it never returns `none`
because the applicable pool is never empty. -/
theorem C3_getNextTool (b : WakeSessionBrain) (hsil : 0 ≤ b.state.silenceCount) :
    (∀ t, (priorityFor b.personaId b.state.phase).find? (eligibleTool b.state) = some t →
        getNextTool b = some t)
    ∧ ((priorityFor b.personaId b.state.phase).find? (eligibleTool b.state) = none →
        validRepeatables b ≠ [] →
        getNextTool b =
          (validRepeatables b)[(b.state.silenceCount
              % ((validRepeatables b).length : Int)).toNat]?)
    ∧ ((priorityFor b.personaId b.state.phase).find? (eligibleTool b.state) = none →
        validRepeatables b = [] →
        getNextTool b =
          (repeatablePool b)[(b.state.silenceCount
              % ((repeatablePool b).length : Int)).toNat]?)
    ∧ getNextTool b ≠ none := by
  cases hf : (priorityFor b.personaId b.state.phase).find? (eligibleTool b.state) with
  | some t =>
    refine ⟨?_, ?_, ?_, ?_⟩
    · intro u hu
      simp only [getNextTool, hf]
      exact hu
    · intro hn; cases hn
    · intro hn; cases hn
    · simp [getNextTool, hf]
  | none =>
    have base : getNextTool b =
        (if (validRepeatables b).length > 0 then
          (validRepeatables b)[(b.state.silenceCount
              % ((validRepeatables b).length : Int)).toNat]?
        else if (repeatablePool b).length > 0 then
          (repeatablePool b)[(b.state.silenceCount
              % ((repeatablePool b).length : Int)).toNat]?
        else none) := by
      simp only [getNextTool, hf]
    refine ⟨?_, ?_, ?_, ?_⟩
    · intro u hu; cases hu
    · intro _ hne
      have hlen : (validRepeatables b).length > 0 := List.length_pos.mpr hne
      rw [base, if_pos hlen]
    · intro _ he
      have hlen : ¬ (validRepeatables b).length > 0 := by simp [he]
      have hpool : (repeatablePool b).length > 0 :=
        List.length_pos.mpr (repeatablePool_ne_nil b)
      rw [base, if_neg hlen, if_pos hpool]
    · rw [base]
      by_cases hv : (validRepeatables b).length > 0
      · rw [if_pos hv]
        exact getElem?_mod_ne_none _ _ (List.length_pos.mp hv)
      · rw [if_neg hv,
          if_pos (List.length_pos.mpr (repeatablePool_ne_nil b))]
        exact getElem?_mod_ne_none _ _ (repeatablePool_ne_nil b)

/-- C3 witness: on the fresh demo session (silence count 0) the selector
yields a tool. -/
theorem C3_witness : getNextTool demoBrain ≠ none :=
  (C3_getNextTool demoBrain (by decide)).2.2.2

/-- C6: a lazy acknowledgment without any voice-command phrase bumps the
response count, lowers the silence count by 2 and the escalation level by
1 (both floored at 0), stores the transcript, sets responsiveness to
`minimal`, and changes nothing else — in particular not the phase. -/
theorem C6_minimal_update (b : WakeSessionBrain) (t : String)
    (hlazy : isLazyResponse (jsLower (jsTrim t.data)) = true)
    (hcmd : hasVoiceCmd t = false) :
    (recordUserResponse b t).state =
      { b.state with
        responseCount := b.state.responseCount + 1
        silenceCount := max 0 (b.state.silenceCount - 2)
        escalationLevel := max 0 (b.state.escalationLevel - 1)
        lastUserResponse := some t
        responsiveness := .minimal } := by
  have hclass : classifyLevel t = .minimal := by simp [classifyLevel, hlazy]
  have hcmds : (hasNewsCmd t = false ∧ hasWeatherCmd t = false)
      ∧ hasAwakePhrase t = false := by
    simpa [hasVoiceCmd] using hcmd
  obtain ⟨⟨hn, hw⟩, ha⟩ := hcmds
  show (checkVoiceCommands (responseClassified b.state t) t) = _
  rw [checkVoiceCommands_eq, responseClassified_minimal b.state t hclass]
  simp [hn, hw, ha]

/-- C6 witness: Scenario C — in `soft_chat` with one prior response, "Yes"
is lazy; the response count becomes 2 and the phase stays `soft_chat`. -/
theorem C6_witness :
    (recordUserResponse demoSoftChat "Yes").state =
      { demoSoftChat.state with
        responseCount := demoSoftChat.state.responseCount + 1
        silenceCount := max 0 (demoSoftChat.state.silenceCount - 2)
        escalationLevel := max 0 (demoSoftChat.state.escalationLevel - 1)
        lastUserResponse := some "Yes"
        responsiveness := .minimal } :=
  C6_minimal_update demoSoftChat "Yes" (by decide) (by decide)

/-- C7: from a fresh session, any sequence of silence events and
(non-empty) user responses keeps the escalation level within [0, 4] and
the silence count non-negative — and this holds after every prefix, since
a prefix of such a sequence is such a sequence. -/
theorem C7_clamping (personaId : String) (preferences : Preferences)
    (context : SessionContext) (ops : List BrainOp)
    (h : ∀ op ∈ ops, isRSEvent op = true) :
    0 ≤ (runOps (createBrain personaId preferences context) ops).state.escalationLevel
    ∧ (runOps (createBrain personaId preferences context) ops).state.escalationLevel ≤ 4
    ∧ 0 ≤ (runOps (createBrain personaId preferences context) ops).state.silenceCount := by
  have h0 : countersInv (createBrain personaId preferences context) := by
    refine ⟨?_, ?_, ?_⟩ <;> simp [createBrain, countersInv]
  exact countersInv_runOps ops _ h0

/-- C7 witness: a short mixed run of silences and a response. -/
theorem C7_witness :
    0 ≤ (runOps (createBrain "morning-coach" prefs0 ctx0)
        [.silence, .response "hello", .silence]).state.escalationLevel :=
  (C7_clamping "morning-coach" prefs0 ctx0 [.silence, .response "hello", .silence]
    (by decide)).1

/-- C8: Scenario A — four silence ticks on a fresh morning-coach session:
the first three leave the phase at `brain_wakeup` with escalation 0, the
fourth yields `soft_chat`, escalation 1, silence count 4. -/
theorem C8_scenarioA (preferences : Preferences) (context : SessionContext) :
    ((silenceRun preferences context 1).state.phase = SessionPhase.brain_wakeup
      ∧ (silenceRun preferences context 1).state.escalationLevel = 0)
    ∧ ((silenceRun preferences context 2).state.phase = SessionPhase.brain_wakeup
      ∧ (silenceRun preferences context 2).state.escalationLevel = 0)
    ∧ ((silenceRun preferences context 3).state.phase = SessionPhase.brain_wakeup
      ∧ (silenceRun preferences context 3).state.escalationLevel = 0)
    ∧ (silenceRun preferences context 4).state.phase = SessionPhase.soft_chat
    ∧ (silenceRun preferences context 4).state.escalationLevel = 1
    ∧ (silenceRun preferences context 4).state.silenceCount = 4 :=
  ⟨⟨rfl, rfl⟩, ⟨rfl, rfl⟩, ⟨rfl, rfl⟩, rfl, rfl, rfl⟩

/-- C9: when `getNextTool` yields a tool, `generateInstruction` only
appends that tool to `toolsUsed` (when not already present) and changes
nothing else; when a curated tool qualified, it was unused and is
consumed by the call. -/
theorem C9_instruction_frame (b : WakeSessionBrain) (t : EngagementTool)
    (h : getNextTool b = some t) :
    (generateInstruction b).2.personaId = b.personaId
    ∧ (generateInstruction b).2.state =
        { b.state with toolsUsed :=
            if b.state.toolsUsed.contains t then b.state.toolsUsed
            else b.state.toolsUsed ++ [t] }
    ∧ ∀ u, (priorityFor b.personaId b.state.phase).find? (eligibleTool b.state) = some u →
        u ∉ b.state.toolsUsed
        ∧ (generateInstruction b).2.state.toolsUsed = b.state.toolsUsed ++ [u] := by
  have hsnd : (generateInstruction b).2 = markToolUsed b t := by
    rw [generateInstruction_snd, h]
  refine ⟨?_, ?_, ?_⟩
  · rw [hsnd, markToolUsed_eq]
  · rw [hsnd, markToolUsed_eq]
  · intro u hu
    have hgu : getNextTool b = some u := by
      simp only [getNextTool, hu]
    rw [h] at hgu
    obtain rfl : t = u := by cases hgu; rfl
    have helig : eligibleTool b.state t = true := List.find?_some hu
    have hmem : ¬ t ∈ b.state.toolsUsed := by
      simp [eligibleTool] at helig
      exact helig.1
    refine ⟨hmem, ?_⟩
    rw [hsnd, markToolUsed_eq]
    simp [hmem]

/-- C9 witness: on the fresh demo session the greeting is chosen and
appended. -/
theorem C9_witness :
    (generateInstruction demoBrain).2.state =
      { demoBrain.state with toolsUsed :=
          if demoBrain.state.toolsUsed.contains EngagementTool.greeting then
            demoBrain.state.toolsUsed
          else demoBrain.state.toolsUsed ++ [EngagementTool.greeting] } :=
  (C9_instruction_frame demoBrain .greeting (by decide)).2.1

/-- C10: in every state reachable from session creation by any sequence of
the five operations, the responsiveness is never `mumbling`, although
`mumbling` is a declared enum value. -/
theorem C10_no_mumbling (personaId : String) (preferences : Preferences)
    (context : SessionContext) (ops : List BrainOp) :
    (runOps (createBrain personaId preferences context) ops).state.responsiveness
      ≠ ResponsivenessLevel.mumbling :=
  no_mumbling_runOps ops _ (by simp [createBrain])

end WUB
